import Mathlib

/-!
Verification development for the Scavenger Hunt core app
(src/core/views.py, src/core/models.py, src/core/urls.py, src/hunt/settings.py).

The Python code is shallowly embedded: dynamically-typed profile payload
values become an explicit `Value` universe, Django session and ORM state
become explicit records threaded through the view functions, and the two
outbound provider calls (token exchange, profile fetch) become explicit
outcome parameters, since they are external collaborators.
-/

/-- Scalar value of a loosely-typed profile payload (Python scalar).
Profile payloads are flat JSON objects, so container nesting is modelled
to one level: a list contains scalars. -/
inductive Prim where
  | pNone
  | pStr (s : String)
  | pInt (n : Int)
  | pBool (b : Bool)
deriving DecidableEq

/-- Value of a loosely-typed profile payload entry (Python value as seen by
views.py: None, str, int, bool, or a list/tuple/set of scalars). -/
inductive Value where
  | vNone
  | vStr (s : String)
  | vInt (n : Int)
  | vBool (b : Bool)
  | vList (items : List Prim)
deriving DecidableEq

/-- A profile payload: the JSON object returned by the provider, as a
key/value association list (Python dict). -/
def Profile := List (String × Value)

instance : DecidableEq Profile := by
  unfold Profile
  infer_instance

/-- Python dict.get with default None: first binding of the key, else None. -/
def pget (profile : Profile) (key : String) : Value :=
  match profile.find? (fun kv => kv.1 == key) with
  | some kv => kv.2
  | none => Value.vNone

/-- Python dict.get with an explicit default. -/
def pgetD (profile : Profile) (key : String) (dflt : Value) : Value :=
  match profile.find? (fun kv => kv.1 == key) with
  | some kv => kv.2
  | none => dflt

/-- Python truthiness of a value. -/
def truthy : Value → Bool
  | Value.vNone => false
  | Value.vStr s => s != ""
  | Value.vInt n => n != 0
  | Value.vBool b => b
  | Value.vList items => !items.isEmpty

/-- Python truthiness of a scalar. -/
def truthyP : Prim → Bool
  | Prim.pNone => false
  | Prim.pStr s => s != ""
  | Prim.pInt n => n != 0
  | Prim.pBool b => b

/-- Decimal digit character. -/
def digitChar (n : Nat) : Char := Char.ofNat (48 + n)

/-- Decimal rendering of a natural number, fuel-structured so that the
kernel can evaluate it. -/
def natStrAux : Nat → Nat → List Char
  | 0, _ => []
  | fuel + 1, n =>
      if n < 10 then [digitChar n]
      else natStrAux fuel (n / 10) ++ [digitChar (n % 10)]

/-- Decimal rendering of a natural number (models Python str on int). -/
def natStr (n : Nat) : String := ⟨natStrAux (n + 1) n⟩

/-- Decimal rendering of an integer (models Python str on int). -/
def intStr : Int → String
  | Int.ofNat m => natStr m
  | Int.negSucc m => ⟨Char.ofNat 45 :: (natStr (m + 1)).data⟩

/-- Python str() of a scalar. -/
def pyStrP : Prim → String
  | Prim.pNone => "None"
  | Prim.pStr s => s
  | Prim.pInt n => intStr n
  | Prim.pBool true => "True"
  | Prim.pBool false => "False"

/-- Python str() of a value. A list renders as a bracketed, comma-separated
rendering of its elements (Python renders the elements with repr, which
additionally quotes strings; the difference is irrelevant here because a
bracketed rendering is never empty and never equal to a bare group name). -/
def pyStr : Value → String
  | Value.vNone => "None"
  | Value.vStr s => s
  | Value.vInt n => intStr n
  | Value.vBool true => "True"
  | Value.vBool false => "False"
  | Value.vList items => "[" ++ String.intercalate ", " (items.map pyStrP) ++ "]"

/-- Python str.lower (ASCII case folding, as used on group names). -/
def pyLower (s : String) : String := ⟨s.data.map Char.toLower⟩

/-- Python str.strip on the character list: drop whitespace from both ends. -/
def stripChars (l : List Char) : List Char :=
  ((l.dropWhile Char.isWhitespace).reverse.dropWhile Char.isWhitespace).reverse

/-- Python str.strip. -/
def pyStrip (s : String) : String := ⟨stripChars s.data⟩

/-- Decimal digit value of a character, none for a non-digit. -/
def decDigit? (c : Char) : Option Nat :=
  let n := c.toNat
  if 48 ≤ n && n ≤ 57 then some (n - 48) else none

/-- Accumulate decimal digits left to right; none on a non-digit. -/
def digitsValAux : List Char → Nat → Option Nat
  | [], acc => some acc
  | c :: rest, acc =>
      match decDigit? c with
      | some d => digitsValAux rest (acc * 10 + d)
      | none => none

/-- Value of a non-empty all-digit character list; none otherwise. -/
def digitsVal : List Char → Option Nat
  | [] => none
  | l => digitsValAux l 0

/-- Python int() applied to a string: surrounding whitespace ignored, an
optional sign, then decimal digits; anything else is a ValueError (none). -/
def pyIntOfString (s : String) : Option Int :=
  match (pyStrip s).data with
  | [] => none
  | c :: rest =>
      if c = Char.ofNat 45 then (digitsVal rest).map (fun n => -(n : Int))
      else if c = Char.ofNat 43 then (digitsVal rest).map (fun n => (n : Int))
      else (digitsVal (c :: rest)).map (fun n => (n : Int))

/-- Python int(v): parse of a string (ValueError gives none), identity on
int, 0/1 on bool, TypeError (none) on anything else. -/
def pyInt : Value → Option Int
  | Value.vStr s => pyIntOfString s
  | Value.vInt n => some n
  | Value.vBool b => some (if b then 1 else 0)
  | _ => none

/-- views.py _extract_graduation_year: None or the empty string give None;
otherwise int(value), with TypeError/ValueError caught to None. -/
def extract_graduation_year (profile : Profile) : Option Int :=
  let value := pget profile "graduation_year"
  if value == Value.vNone || value == Value.vStr "" then none
  else pyInt value

/-- The admin group names recognized by views.py _extract_is_admin. -/
def adminGroups : List String := ["scavenger-admin", "ion-admin", "admin"]

/-- views.py _extract_is_admin: groups = profile.get("groups") or [];
if it is a list/tuple/set and some lower-cased str(item) is one of the
admin group names, True; otherwise bool(is_admin or is_staff). -/
def extract_is_admin (profile : Profile) : Bool :=
  let groups0 := pget profile "groups"
  let groups := if truthy groups0 then groups0 else Value.vList []
  let groupHit :=
    match groups with
    | Value.vList items => items.any (fun item => adminGroups.contains (pyLower (pyStrP item)))
    | _ => false
  if groupHit then true
  else truthy (pget profile "is_admin") || truthy (pget profile "is_staff")

/-- Python (v or ""): keep a truthy value, replace a falsy one by "". -/
def orEmptyStr (v : Value) : Value := if truthy v then v else Value.vStr ""

/-- Python v.strip(): defined on strings only; none models the
AttributeError raised on any non-string. -/
def stripped : Value → Option String
  | Value.vStr s => some (pyStrip s)
  | _ => none

/-- views.py _build_display_name: trimmed first/last name, joined when one
is non-empty, else trimmed profile.get("ion_username", ""). A non-string
truthy name field raises (none). -/
def build_display_name (profile : Profile) : Option String :=
  match stripped (orEmptyStr (pget profile "first_name")),
        stripped (orEmptyStr (pget profile "last_name")) with
  | some first, some last =>
      if first != "" || last != "" then some (pyStrip (first ++ " " ++ last))
      else stripped (pgetD profile "ion_username" (Value.vStr ""))
  | _, _ => none

-- Spec section 8 examples, as sanity checks of the mapper embedding.
example :
    build_display_name
      [("ion_username", Value.vStr "jdoe"), ("first_name", Value.vStr "Jane"),
       ("last_name", Value.vStr "Doe"),
       ("groups", Value.vList [Prim.pStr "Scavenger-Admin"])] = some "Jane Doe" := by decide

example :
    extract_is_admin
      [("ion_username", Value.vStr "jdoe"), ("first_name", Value.vStr "Jane"),
       ("last_name", Value.vStr "Doe"),
       ("groups", Value.vList [Prim.pStr "Scavenger-Admin"])] = true := by decide

example :
    extract_graduation_year
      [("ion_username", Value.vStr "jdoe"), ("graduation_year", Value.vStr "abc")] = none := by
  decide

example : extract_is_admin [("is_staff", Value.vBool true)] = true := by decide

example : extract_is_admin [("groups", Value.vStr "admin")] = false := by decide

/-!  OAuth configuration, session, and participant store  -/

/-- The Ion OAuth settings consumed by views.py (settings.py: the ION_*
values). An unset value (None in Python, absent env var) is modelled by
the empty string, matching the falsiness test used by the code. -/
structure OAuthConfig where
  clientId : String
  clientSecret : String
  redirectUri : String
  authorizeUrl : String
  tokenUrl : String
  profileUrl : String
  scope : List String
deriving DecidableEq

/-- views.py _missing_oauth_settings: the keys among ION_CLIENT_ID,
ION_REDIRECT_URI (and ION_CLIENT_SECRET when required) whose value is
falsy, in dict insertion order. -/
def missing_oauth_settings (cfg : OAuthConfig) (requireSecret : Bool) : List String :=
  let required := [("ION_CLIENT_ID", cfg.clientId), ("ION_REDIRECT_URI", cfg.redirectUri)]
  let required :=
    if requireSecret then required ++ [("ION_CLIENT_SECRET", cfg.clientSecret)] else required
  (required.filter (fun kv => kv.2 == "")).map (fun kv => kv.1)

/-- The Django session keys used by views.py (ion_oauth_state,
ion_oauth_token, ion_participant_id), as explicit optional slots. -/
structure Session where
  oauthState : Option String
  oauthToken : Option String
  participantId : Option Nat
deriving DecidableEq

/-- models.py Participant: one row of the participant table. created_at and
updated_at are the auto-managed timestamps. -/
structure Participant where
  id : Nat
  ion_username : String
  display_name : String
  email : String
  graduation_year : Option Int
  is_admin : Bool
  last_login : Option Int
  created_at : Int
  updated_at : Int
deriving DecidableEq

/-- The defaults mapping passed to Participant.objects.update_or_create in
views.py oauth_callback. -/
structure ParticipantDefaults where
  display_name : String
  email : String
  graduation_year : Option Int
  is_admin : Bool
  last_login : Option Int
deriving DecidableEq

/-- The participant table plus the auto-increment id state. -/
structure Store where
  rows : List Participant
  nextId : Nat
deriving DecidableEq

/-- Apply the update_or_create defaults to an existing row (Django updates
the listed fields and saves; updated_at is auto_now). -/
def applyDefaults (p : Participant) (d : ParticipantDefaults) (now : Int) : Participant :=
  { p with
    display_name := d.display_name
    email := d.email
    graduation_year := d.graduation_year
    is_admin := d.is_admin
    last_login := d.last_login
    updated_at := now }

/-- Django Participant.objects.update_or_create keyed by ion_username: the
matching row (unique by the column constraint) is updated with the
defaults, otherwise a fresh row is created. Returns the new store, the
affected row, and the created flag. -/
def update_or_create (st : Store) (now : Int) (u : String) (d : ParticipantDefaults) :
    Store × Participant × Bool :=
  match st.rows.find? (fun p => p.ion_username == u) with
  | some p =>
      let updated := applyDefaults p d now
      ({ st with rows := st.rows.map (fun q => if q.ion_username == u then updated else q) },
       updated, false)
  | none =>
      let created : Participant :=
        { id := st.nextId
          ion_username := u
          display_name := d.display_name
          email := d.email
          graduation_year := d.graduation_year
          is_admin := d.is_admin
          last_login := d.last_login
          created_at := now
          updated_at := now }
      ({ rows := st.rows ++ [created], nextId := st.nextId + 1 }, created, true)

/-!  The handshake views  -/

/-- Python truthiness of an optional query parameter (request.GET.get):
none is an absent parameter, some "" a present-but-empty one. -/
def optTruthy : Option String → Bool
  | none => false
  | some s => s != ""

/-- Outcome of views.py oauth_start: the ImproperlyConfigured exception
(a hard server error) or the redirect to the provider. -/
inductive StartResp where
  | configError (missing : List String)
  | redirectTo (url : String)
deriving DecidableEq

/-- Models requests_oauthlib OAuth2Session.authorization_url, an external
collaborator: the authorize endpoint with client id, redirect URI, scope
and the fresh state embedded as query parameters. -/
def authorization_url (base clientId redirectUri : String) (scope : List String)
    (state : String) : String :=
  base ++ "?response_type=code&client_id=" ++ clientId ++ "&redirect_uri=" ++ redirectUri
    ++ "&scope=" ++ String.intercalate "+" scope ++ "&state=" ++ state

/-- views.py oauth_start. The library-generated random state is passed in
as freshState (randomness is external). -/
def oauth_start (cfg : OAuthConfig) (freshState : String) (sess : Session) :
    StartResp × Session :=
  let missing := missing_oauth_settings cfg false
  if !missing.isEmpty then (StartResp.configError missing, sess)
  else
    (StartResp.redirectTo
       (authorization_url cfg.authorizeUrl cfg.clientId cfg.redirectUri cfg.scope freshState),
     { sess with oauthState := some freshState })

/-- Outcome of views.py oauth_callback: configError is the
ImproperlyConfigured exception (hard server error); invalidState and
missingCode are the HTTP 400 responses; tokenFetchFailed,
profileFetchFailed and noUsername are the HTTP 502 responses;
nameTypeError is the uncaught exception raised by _build_display_name on a
non-string name field; success is the redirect to core:challenge with the
bound participant id. -/
inductive CallbackResp where
  | configError (missing : List String)
  | invalidState
  | missingCode
  | tokenFetchFailed
  | profileFetchFailed
  | noUsername
  | nameTypeError
  | success (participantId : Nat)
deriving DecidableEq

/-- views.py oauth_callback. The two outbound provider calls are external:
tokenResult is the outcome of oauth.fetch_token (none is the caught
exception) and profileResult the outcome of the profile fetch including
raise_for_status and json decoding (none is the caught exception). now is
the clock reading used for timestamps. -/
def oauth_callback (cfg : OAuthConfig) (qstate qcode : Option String)
    (tokenResult : Option String) (profileResult : Option Profile) (now : Int)
    (sess : Session) (store : Store) : CallbackResp × Session × Store :=
  let missing := missing_oauth_settings cfg true
  if !missing.isEmpty then (CallbackResp.configError missing, sess, store)
  else
    let stored_state := sess.oauthState
    let sess1 := { sess with oauthState := none }
    if !optTruthy qstate || qstate != stored_state then
      (CallbackResp.invalidState, sess1, store)
    else if !optTruthy qcode then (CallbackResp.missingCode, sess1, store)
    else
      match tokenResult with
      | none => (CallbackResp.tokenFetchFailed, sess1, store)
      | some token =>
        let sess2 := { sess1 with oauthToken := some token }
        match profileResult with
        | none => (CallbackResp.profileFetchFailed, sess2, store)
        | some profile =>
          let ion_username := pget profile "ion_username"
          if !truthy ion_username then (CallbackResp.noUsername, sess2, store)
          else
            match build_display_name profile with
            | none => (CallbackResp.nameTypeError, sess2, store)
            | some dn0 =>
              let dnVal := if dn0 != "" then Value.vStr dn0 else ion_username
              let d : ParticipantDefaults :=
                { display_name := pyStr dnVal
                  email :=
                    pyStr
                      (if truthy (pget profile "tj_email") then pget profile "tj_email"
                       else pgetD profile "email" (Value.vStr ""))
                  graduation_year := extract_graduation_year profile
                  is_admin := extract_is_admin profile
                  last_login := some now }
              let res := update_or_create store now (pyStr ion_username) d
              let sess3 := { sess2 with participantId := some res.2.1.id }
              (CallbackResp.success res.2.1.id, sess3, res.1)

/-!  Hunt window gate and page views  -/

/-- views.py _format_est applied to a set boundary: the Django-formatted
local time plus the " ET" suffix. The time zone localization and
date_format call are external collaborators, abstracted as the dateFormat
argument (localizing does not change the instant, so comparisons below are
unaffected). -/
def formattedBoundary (dateFormat : Int → String) (t : Int) : String :=
  dateFormat t ++ " ET"

/-- The upcoming-state message built by views.py _hunt_window_status. -/
def upcomingMessage (dateFormat : Int → String) (s : Int) : String :=
  "The hunt hasn\x27t opened yet. Doors open on " ++ formattedBoundary dateFormat s ++ "."

/-- The ended-state message built by views.py _hunt_window_status. -/
def endedMessage (dateFormat : Int → String) (e : Int) : String :=
  "The hunt has ended. It closed on " ++ formattedBoundary dateFormat e ++ "."

/-- views.py _hunt_window_status: (is_open, state, message) from the two
optional configured boundaries and the current instant. -/
def hunt_window_status (dateFormat : Int → String) (start endT : Option Int) (now : Int) :
    Bool × String × String :=
  match start with
  | some s =>
      if now < s then (false, "upcoming", upcomingMessage dateFormat s)
      else
        match endT with
        | some e =>
            if now > e then (false, "ended", endedMessage dateFormat e)
            else (true, "open", "")
        | none => (true, "open", "")
  | none =>
      match endT with
      | some e =>
          if now > e then (false, "ended", endedMessage dateFormat e)
          else (true, "open", "")
      | none => (true, "open", "")

/-- A string occurs inside another (the message "includes" a formatted
boundary). -/
def containsSub (needle hay : String) : Prop :=
  ∃ pre post, hay = pre ++ needle ++ post

/-- views.py _get_logged_in_participant: resolve the bound participant id,
clearing a stale binding whose row no longer exists. -/
def get_logged_in_participant (sess : Session) (store : Store) :
    Option Participant × Session :=
  match sess.participantId with
  | none => (none, sess)
  | some pid =>
      if pid == 0 then (none, sess)
      else
        match store.rows.find? (fun p => p.id == pid) with
        | some p => (some p, sess)
        | none => (none, { sess with participantId := none })

/-- Outcome of views.py challenge_view: the redirect to core:login for an
unauthenticated request, or a rendered template with its HTTP status. -/
inductive PageResp where
  | redirectLogin
  | page (template : String) (status : Nat)
deriving DecidableEq

/-- views.py challenge_view. -/
def challenge_view (dateFormat : Int → String) (start endT : Option Int) (now : Int)
    (sess : Session) (store : Store) : PageResp × Session :=
  let gp := get_logged_in_participant sess store
  match gp.1 with
  | none => (PageResp.redirectLogin, gp.2)
  | some participant =>
      let ws := hunt_window_status dateFormat start endT now
      if ws.1 || participant.is_admin then (PageResp.page "core/challenge.html" 200, gp.2)
      else (PageResp.page "core/challenge_closed.html" 403, gp.2)

/-!  URL table and the logout view  -/

/-- The view functions referenced by src/core/urls.py. -/
inductive ViewName where
  | login
  | oauthStart
  | oauthCallback
  | dashboard
  | challenge
  | logout
deriving DecidableEq

/-- src/core/urls.py urlpatterns: route path to view function. -/
def urlpatterns : List (String × ViewName) :=
  [("", ViewName.login), ("auth/ion/", ViewName.oauthStart),
   ("complete/ion/", ViewName.oauthCallback), ("dashboard/", ViewName.dashboard),
   ("challenge/", ViewName.challenge), ("logout/", ViewName.logout)]

/-- Modelled from the spec: src/core/urls.py routes "logout/" to
views.logout_view, but the function body is not present in
src/core/views.py; spec section 4.4 specifies clear(session) as a trivial
mutator that removes the participant binding from the session. -/
def logout_view (sess : Session) : Session :=
  { sess with participantId := none }

/-!  Shared concrete fixtures  -/

/-- An empty session. -/
def sessEmpty : Session := { oauthState := none, oauthToken := none, participantId := none }

/-- An empty participant store. -/
def storeEmpty : Store := { rows := [], nextId := 1 }

/-- A fully-populated OAuth configuration. -/
def cfgFull : OAuthConfig :=
  { clientId := "cid"
    clientSecret := "sec"
    redirectUri := "https://app/complete/ion/"
    authorizeUrl := "https://ion/oauth/authorize/"
    tokenUrl := "https://ion/oauth/token/"
    profileUrl := "https://ion/api/profile"
    scope := ["read"] }

/-- A configuration with authorize endpoint and scope unset but client id
and redirect URI present. -/
def cfgNoAuthorize : OAuthConfig :=
  { cfgFull with authorizeUrl := "", scope := [] }

/-- A configuration with every recognized option unset. -/
def cfgUnset : OAuthConfig :=
  { clientId := "", clientSecret := "", redirectUri := "", authorizeUrl := "",
    tokenUrl := "", profileUrl := "", scope := [] }

/-!  C6: admin mapping  -/

/-- Follows the wording of the spec (section 4.2 Profile Mapper, design
note 9): is_admin is true if a case-insensitive groups collection
intersects the admin group names, OR a truthy is_admin or is_staff field
is present; all other inputs give false, and an absent or malformed groups
value acts as empty. Stated separately from extract_is_admin so the two
can be compared. -/
def is_admin_spec (profile : Profile) : Bool :=
  (match pget profile "groups" with
   | Value.vList items => items.any (fun item => adminGroups.contains (pyLower (pyStrP item)))
   | _ => false)
  || (truthy (pget profile "is_admin") || truthy (pget profile "is_staff"))

/-- C6: for every profile payload, the is_admin mapped by the code is true
exactly when a groups collection contains an element whose lower-cased
string form is one of the admin group names, or a truthy is_admin or
is_staff field is present; absent or malformed groups behave as empty and
every other input maps to false — i.e. extract_is_admin agrees with the
spec-worded is_admin_spec on every input. -/
theorem c6_extract_is_admin_matches_spec :
    ∀ profile : Profile, extract_is_admin profile = is_admin_spec profile := by
  intro p
  unfold extract_is_admin is_admin_spec
  cases hg : pget p "groups" with
  | vNone => simp [truthy]
  | vStr s =>
      by_cases hs : s = "" <;> simp [truthy, hs]
  | vInt n =>
      by_cases hn : n = 0 <;> simp [truthy, hn]
  | vBool b => cases b <;> simp [truthy]
  | vList items =>
      cases items with
      | nil => simp [truthy]
      | cons a rest =>
          simp only [truthy, List.isEmpty_cons, Bool.not_false, if_true]
          cases hany : (a :: rest).any
              (fun item => adminGroups.contains (pyLower (pyStrP item))) <;>
            simp [hany]

/-!  C9: logout routing and session clearing  -/

/-- C9: the URL table routes the path "logout/" to the logout view, and
logout_view (modelled from the spec, its body being absent from
src/core/views.py) removes the participant binding from the session. -/
theorem c9_logout_route_clears_binding :
    (("logout/", ViewName.logout) ∈ urlpatterns) ∧
    ∀ sess : Session, (logout_view sess).participantId = none :=
  ⟨by decide, fun _ => rfl⟩

/-!  C3: hunt window gate  -/

/-- C3 (counterexample): the claim asserts that at an instant exactly equal
to start the state is open, for every configuration of the two optional
boundaries. With start = 2, end = 1 and now = 2 (an inverted window), now
equals start, yet the code reports state "ended" and not "open". -/
theorem c3_boundary_counterexample :
    (hunt_window_status intStr (some 2) (some 1) 2).2.1 = "ended" ∧
    (hunt_window_status intStr (some 2) (some 1) 2).2.1 ≠ "open" := by decide

/-- C3 (amended): for every current time and configuration of the two
optional boundaries: if start is set and now is strictly before start, the
state is upcoming and closed with a message containing the formatted
start; otherwise if end is set and now is strictly after end, the state is
ended and closed with a message containing the formatted end; otherwise
the state is open with an empty message — an unset boundary imposes no
limit. At an instant exactly equal to start or end the state is open
provided that, when both boundaries are set, start does not lie after end
(without that proviso the claim fails, see the counterexample). -/
theorem c3_hunt_window_amended (dateFormat : Int → String) (start endT : Option Int)
    (now : Int) :
    (∀ s, start = some s → now < s →
      hunt_window_status dateFormat start endT now =
        (false, "upcoming", upcomingMessage dateFormat s) ∧
      containsSub (formattedBoundary dateFormat s) (upcomingMessage dateFormat s)) ∧
    (∀ e, endT = some e → (∀ s, start = some s → ¬ now < s) → now > e →
      hunt_window_status dateFormat start endT now =
        (false, "ended", endedMessage dateFormat e) ∧
      containsSub (formattedBoundary dateFormat e) (endedMessage dateFormat e)) ∧
    ((∀ s, start = some s → ¬ now < s) → (∀ e, endT = some e → ¬ now > e) →
      hunt_window_status dateFormat start endT now = (true, "open", "")) ∧
    ((∀ s e, start = some s → endT = some e → s ≤ e) →
      (start = some now ∨ endT = some now) →
      (hunt_window_status dateFormat start endT now).2.1 = "open") := by
  refine ⟨?_, ?_, ?_, ?_⟩
  · intro s hs hlt
    subst hs
    refine ⟨by simp [hunt_window_status, hlt], ?_⟩
    exact ⟨"The hunt hasn\x27t opened yet. Doors open on ", ".", rfl⟩
  · intro e he hns hgt
    subst he
    refine ⟨?_, ⟨"The hunt has ended. It closed on ", ".", rfl⟩⟩
    cases start with
    | none => simp [hunt_window_status, hgt]
    | some s =>
        have hs := hns s rfl
        simp [hunt_window_status, hs, hgt]
  · intro hns hne
    cases start with
    | none =>
        cases endT with
        | none => simp [hunt_window_status]
        | some e => simp [hunt_window_status, hne e rfl]
    | some s =>
        cases endT with
        | none => simp [hunt_window_status, hns s rfl]
        | some e => simp [hunt_window_status, hns s rfl, hne e rfl]
  · intro hord hbd
    rcases hbd with hb | hb
    · subst hb
      cases endT with
      | none => simp [hunt_window_status]
      | some e =>
          have : ¬ now > e := not_lt.mpr (hord now e rfl rfl)
          simp [hunt_window_status, this]
    · subst hb
      cases start with
      | none => simp [hunt_window_status]
      | some s =>
          have hle : s ≤ now := hord s now rfl rfl
          have h1 : ¬ now < s := not_lt.mpr hle
          simp [hunt_window_status, h1]

/-- C3 (witness): the amended theorem applied at a concrete upcoming
configuration. -/
theorem c3_hunt_window_witness :
    hunt_window_status intStr (some 5) none 0 =
      (false, "upcoming", upcomingMessage intStr 5) ∧
    containsSub (formattedBoundary intStr 5) (upcomingMessage intStr 5) :=
  (c3_hunt_window_amended intStr (some 5) none 0).1 5 rfl (by decide)

/-!  C4: challenge access decision  -/

/-- A stored non-admin participant used as a concrete fixture. -/
def pAlice : Participant :=
  { id := 1, ion_username := "alice", display_name := "Alice", email := "",
    graduation_year := none, is_admin := false, last_login := none,
    created_at := 0, updated_at := 0 }

/-- A session bound to pAlice. -/
def sessAlice : Session :=
  { oauthState := none, oauthToken := none, participantId := some 1 }

/-- A store holding exactly pAlice. -/
def storeAlice : Store := { rows := [pAlice], nextId := 2 }

/-- C4: for an authenticated participant, challenge content is rendered if
and only if the gate is open or the participant is an admin; when the
window is closed and the participant is not an admin the response is the
403 closed page, which is distinct from the redirect that an
unauthenticated request receives. -/
theorem c4_challenge_access (dateFormat : Int → String) (start endT : Option Int)
    (now : Int) (sess : Session) (store : Store) (p : Participant) (sessA : Session)
    (hauth : get_logged_in_participant sess store = (some p, sessA)) :
    ((challenge_view dateFormat start endT now sess store).1 =
        PageResp.page "core/challenge.html" 200 ↔
      ((hunt_window_status dateFormat start endT now).1 = true ∨ p.is_admin = true)) ∧
    ((hunt_window_status dateFormat start endT now).1 = false → p.is_admin = false →
      (challenge_view dateFormat start endT now sess store).1 =
        PageResp.page "core/challenge_closed.html" 403) ∧
    (∀ t : String, ∀ k : Nat, PageResp.page t k ≠ PageResp.redirectLogin) ∧
    (∀ sessb storeb, (get_logged_in_participant sessb storeb).1 = none →
      (challenge_view dateFormat start endT now sessb storeb).1 =
        PageResp.redirectLogin) := by
  have hv : challenge_view dateFormat start endT now sess store =
      (if (hunt_window_status dateFormat start endT now).1 || p.is_admin then
        (PageResp.page "core/challenge.html" 200, sessA)
      else (PageResp.page "core/challenge_closed.html" 403, sessA)) := by
    unfold challenge_view
    rw [hauth]
  refine ⟨?_, ?_, ?_, ?_⟩
  · cases hopen : (hunt_window_status dateFormat start endT now).1 <;>
      cases hadmin : p.is_admin <;> simp [hv, hopen, hadmin]
  · intro hopen hadmin
    simp [hv, hopen, hadmin]
  · intro t k h
    exact PageResp.noConfusion h
  · intro sessb storeb h
    unfold challenge_view
    cases hgp : get_logged_in_participant sessb storeb with
    | mk a b =>
        rw [hgp] at h
        have ha : a = none := h
        subst ha
        rfl

/-- C4 (witness): the theorem applied to pAlice with an open window. -/
theorem c4_challenge_access_witness :
    ((challenge_view intStr (some 0) (some 10) 5 sessAlice storeAlice).1 =
        PageResp.page "core/challenge.html" 200 ↔
      ((hunt_window_status intStr (some 0) (some 10) 5).1 = true ∨
        pAlice.is_admin = true)) ∧
    ((hunt_window_status intStr (some 0) (some 10) 5).1 = false →
      pAlice.is_admin = false →
      (challenge_view intStr (some 0) (some 10) 5 sessAlice storeAlice).1 =
        PageResp.page "core/challenge_closed.html" 403) ∧
    (∀ t : String, ∀ k : Nat, PageResp.page t k ≠ PageResp.redirectLogin) ∧
    (∀ sessb storeb, (get_logged_in_participant sessb storeb).1 = none →
      (challenge_view intStr (some 0) (some 10) 5 sessb storeb).1 =
        PageResp.redirectLogin) :=
  c4_challenge_access intStr (some 0) (some 10) 5 sessAlice storeAlice pAlice sessAlice
    (by decide)

/-!  C7: start handshake configuration check  -/

/-- C7 (counterexample): the claim asserts startHandshake fails with a
ConfigurationError whenever the authorize endpoint or the scope is absent.
With client id and redirect URI present but authorize endpoint and scope
both unset, the code does not fail: it redirects (to a URL built on the
empty endpoint) and stores the fresh state, because
_missing_oauth_settings never inspects ION_AUTHORIZE_URL or ION_SCOPE. -/
theorem c7_start_counterexample :
    oauth_start cfgNoAuthorize "fresh1" sessEmpty =
      (StartResp.redirectTo
         (authorization_url "" "cid" "https://app/complete/ion/" [] "fresh1"),
       { oauthState := some "fresh1", oauthToken := none, participantId := none }) := by
  decide

/-- C7 (amended): startHandshake fails with a ConfigurationError listing
the missing keys whenever the client id or the redirect URI is absent —
these two are the only settings it validates, the authorize endpoint and
scope are not checked — and when both are present it stores the fresh
oauth_state in the session and redirects to the provider's authorization
URL. -/
theorem c7_start_amended (cfg : OAuthConfig) (freshState : String) (sess : Session) :
    (missing_oauth_settings cfg false =
      (if cfg.clientId = "" then ["ION_CLIENT_ID"] else []) ++
        (if cfg.redirectUri = "" then ["ION_REDIRECT_URI"] else [])) ∧
    ((cfg.clientId = "" ∨ cfg.redirectUri = "") →
      oauth_start cfg freshState sess =
        (StartResp.configError (missing_oauth_settings cfg false), sess)) ∧
    (cfg.clientId ≠ "" → cfg.redirectUri ≠ "" →
      oauth_start cfg freshState sess =
        (StartResp.redirectTo
           (authorization_url cfg.authorizeUrl cfg.clientId cfg.redirectUri cfg.scope
              freshState),
         { sess with oauthState := some freshState })) := by
  refine ⟨?_, ?_, ?_⟩
  · by_cases hc : cfg.clientId = "" <;> by_cases hr : cfg.redirectUri = "" <;>
      simp [missing_oauth_settings, List.filter_cons, hc, hr]
  · intro h
    have hne : (missing_oauth_settings cfg false).isEmpty = false := by
      rcases h with h | h <;>
        by_cases hc : cfg.clientId = "" <;> by_cases hr : cfg.redirectUri = "" <;>
          simp_all [missing_oauth_settings, List.filter_cons]
    simp [oauth_start, hne]
  · intro hc hr
    have hmt : missing_oauth_settings cfg false = [] := by
      simp [missing_oauth_settings, List.filter_cons, hc, hr]
    simp [oauth_start, hmt]

/-- C7 (witness): the amended theorem applied to the all-unset
configuration, which fails listing both validated keys. -/
theorem c7_start_witness :
    oauth_start cfgUnset "fresh2" sessEmpty =
      (StartResp.configError (missing_oauth_settings cfgUnset false), sessEmpty) :=
  (c7_start_amended cfgUnset "fresh2" sessEmpty).2.1 (Or.inl rfl)

/-!  Callback helper lemmas (shared by the handshake claims)  -/

/-- Under a complete configuration, every execution of oauth_callback
leaves the session without a stored oauth state: the pop happens before
any branching that follows the configuration check. -/
theorem callback_consumes_state (cfg : OAuthConfig) (qstate qcode : Option String)
    (tok : Option String) (prof : Option Profile) (now : Int) (sess : Session)
    (store : Store) (hcfg : missing_oauth_settings cfg true = []) :
    (oauth_callback cfg qstate qcode tok prof now sess store).2.1.oauthState = none := by
  unfold oauth_callback
  rw [hcfg]
  simp only [List.isEmpty_nil, Bool.not_true, Bool.false_eq_true, if_false]
  split
  · rfl
  split
  · rfl
  split
  · rfl
  split
  · rfl
  split
  · rfl
  split
  · rfl
  rfl

/-- Under a complete configuration, an absent or mismatched query state
makes oauth_callback return the invalid-state bad request, with the stored
state popped and nothing else changed. -/
theorem callback_invalid_state (cfg : OAuthConfig) (qstate qcode : Option String)
    (tok : Option String) (prof : Option Profile) (now : Int) (sess : Session)
    (store : Store) (hcfg : missing_oauth_settings cfg true = [])
    (hbad : optTruthy qstate = false ∨ qstate ≠ sess.oauthState) :
    oauth_callback cfg qstate qcode tok prof now sess store =
      (CallbackResp.invalidState, { sess with oauthState := none }, store) := by
  unfold oauth_callback
  rw [hcfg]
  simp only [List.isEmpty_nil, Bool.not_true, Bool.false_eq_true, if_false]
  have hcond : (!optTruthy qstate || qstate != sess.oauthState) = true := by
    rcases hbad with h | h
    · simp [h]
    · simp [bne_iff_ne, h]
  rw [if_pos hcond]

/-!  C1: state verification and state consumption  -/

/-- A configuration that is complete except for the client secret. -/
def cfgNoSecret : OAuthConfig := { cfgFull with clientSecret := "" }

/-- A session holding the stored one-time state "abc". -/
def sessWithState : Session :=
  { oauthState := some "abc", oauthToken := none, participantId := none }

/-- C1 (counterexample): the claim asserts that in every execution the
stored oauth_state is removed, and that a mismatched query state always
fails with InvalidStateError. With the client secret unset, a callback
request with a mismatched query state fails with the ConfigurationError
instead, and the session still holds the stored state afterwards: the
configuration check precedes the pop. -/
theorem c1_state_counterexample :
    oauth_callback cfgNoSecret (some "zzz") none none none 0 sessWithState storeEmpty =
      (CallbackResp.configError ["ION_CLIENT_SECRET"], sessWithState, storeEmpty) ∧
    sessWithState.oauthState = some "abc" := by decide

/-- C1 (amended): under a fully-present configuration (client secret
included), whenever the query state is absent or differs from the stored
state, oauth_callback fails with the invalid-state bad request and the
session and store are untouched except for the popped state — in
particular no token is stored, no participant row is written and no
binding is made, whatever the token and profile outcomes would have been;
and in every execution under such a configuration the stored oauth_state
is removed. -/
theorem c1_invalid_state_amended (cfg : OAuthConfig) (qstate qcode : Option String)
    (tok : Option String) (prof : Option Profile) (now : Int) (sess : Session)
    (store : Store) (hcfg : missing_oauth_settings cfg true = []) :
    ((optTruthy qstate = false ∨ qstate ≠ sess.oauthState) →
      oauth_callback cfg qstate qcode tok prof now sess store =
        (CallbackResp.invalidState, { sess with oauthState := none }, store)) ∧
    (oauth_callback cfg qstate qcode tok prof now sess store).2.1.oauthState = none :=
  ⟨callback_invalid_state cfg qstate qcode tok prof now sess store hcfg,
   callback_consumes_state cfg qstate qcode tok prof now sess store hcfg⟩

/-- C1 (witness): the amended theorem applied at a concrete mismatched
state under the full configuration. -/
theorem c1_invalid_state_witness :
    oauth_callback cfgFull (some "zzz") none none none 0 sessWithState storeEmpty =
      (CallbackResp.invalidState, { sessWithState with oauthState := none },
       storeEmpty) :=
  (c1_invalid_state_amended cfgFull (some "zzz") none none none 0 sessWithState
      storeEmpty (by decide)).1 (Or.inr (by decide))

/-!  C2: replay rejection  -/

/-- C2 (counterexample): the claim asserts the first call consumes the
stored state and a second call always fails with InvalidStateError. With
the client secret unset, a first call presenting the stored state leaves
the state in place, and the identical second call fails with the
ConfigurationError, not the invalid-state error. -/
theorem c2_replay_counterexample :
    oauth_callback cfgNoSecret (some "abc") (some "code") (some "tok") none 0
        sessWithState storeEmpty =
      (CallbackResp.configError ["ION_CLIENT_SECRET"], sessWithState, storeEmpty) ∧
    (oauth_callback cfgNoSecret (some "abc") (some "code") (some "tok") none 0
        sessWithState storeEmpty).1 ≠ CallbackResp.invalidState := by decide

/-- C2 (amended): under a fully-present configuration, a first
oauth_callback call presenting the stored state consumes it, so a second
call on the resulting session — whatever query state, code, outcomes,
clock and store it presents — finds no stored state and fails with the
invalid-state bad request. -/
theorem c2_replay_amended (cfg : OAuthConfig) (s : String) (qcode : Option String)
    (tok : Option String) (prof : Option Profile) (now : Int) (sess : Session)
    (store : Store) (hcfg : missing_oauth_settings cfg true = [])
    (hs : sess.oauthState = some s) :
    (oauth_callback cfg (some s) qcode tok prof now sess store).2.1.oauthState = none ∧
    ∀ (qstate2 qcode2 : Option String) (tok2 : Option String) (prof2 : Option Profile)
      (now2 : Int) (store2 : Store),
      oauth_callback cfg qstate2 qcode2 tok2 prof2 now2
          (oauth_callback cfg (some s) qcode tok prof now sess store).2.1 store2 =
        (CallbackResp.invalidState,
         { (oauth_callback cfg (some s) qcode tok prof now sess store).2.1 with
             oauthState := none },
         store2) := by
  have h1 := callback_consumes_state cfg (some s) qcode tok prof now sess store hcfg
  refine ⟨h1, ?_⟩
  intro qstate2 qcode2 tok2 prof2 now2 store2
  apply callback_invalid_state _ _ _ _ _ _ _ _ hcfg
  cases qstate2 with
  | none => exact Or.inl rfl
  | some t => exact Or.inr (by simp [h1])

/-- C2 (witness): the amended theorem applied at a concrete pair of calls
under the full configuration. -/
theorem c2_replay_witness :
    (oauth_callback cfgFull (some "abc") none none none 0 sessWithState
        storeEmpty).2.1.oauthState = none ∧
    ∀ (qstate2 qcode2 : Option String) (tok2 : Option String) (prof2 : Option Profile)
      (now2 : Int) (store2 : Store),
      oauth_callback cfgFull qstate2 qcode2 tok2 prof2 now2
          (oauth_callback cfgFull (some "abc") none none none 0 sessWithState
              storeEmpty).2.1 store2 =
        (CallbackResp.invalidState,
         { (oauth_callback cfgFull (some "abc") none none none 0 sessWithState
              storeEmpty).2.1 with oauthState := none },
         store2) :=
  c2_replay_amended cfgFull "abc" none none none 0 sessWithState storeEmpty
    (by decide) (by decide)

/-!  C8: token exchange failure aborts  -/

/-- C8: when the token exchange fails (the fetch raises), oauth_callback
returns the 502 upstream-failure response and aborts atomically: the store
is unchanged — no participant row created or updated — no token is stored
in the session, no participant binding is made, and only the one-time
state has been popped. -/
theorem c8_token_failure_aborts (cfg : OAuthConfig) (s c : String)
    (prof : Option Profile) (now : Int) (sess : Session) (store : Store)
    (hcfg : missing_oauth_settings cfg true = []) (hst : sess.oauthState = some s)
    (hsne : s ≠ "") (hcne : c ≠ "") :
    oauth_callback cfg (some s) (some c) none prof now sess store =
      (CallbackResp.tokenFetchFailed, { sess with oauthState := none }, store) := by
  unfold oauth_callback
  rw [hcfg, hst]
  simp [optTruthy, hsne, hcne]

/-- C8 (witness): the theorem applied at a concrete failed exchange. -/
theorem c8_token_failure_witness :
    oauth_callback cfgFull (some "abc") (some "code1") none none 0 sessWithState
        storeEmpty =
      (CallbackResp.tokenFetchFailed, { sessWithState with oauthState := none },
       storeEmpty) :=
  c8_token_failure_aborts cfgFull "abc" "code1" none 0 sessWithState storeEmpty
    (by decide) (by decide) (by decide) (by decide)

/-!  Store lemmas (shared by the upsert claims)  -/

/-- One row per external username: the store invariant maintained by the
unique=True column constraint. -/
def usernameUnique (st : Store) : Prop :=
  st.rows.Pairwise (fun a b => a.ion_username ≠ b.ion_username)

/-- The row returned by an upsert carries the key username. -/
theorem update_or_create_result_key (st : Store) (now : Int) (u : String)
    (d : ParticipantDefaults) :
    ((update_or_create st now u d).2.1.ion_username == u) = true := by
  unfold update_or_create
  cases hfind : st.rows.find? (fun p => p.ion_username == u) with
  | some p =>
      show (p.ion_username == u) = true
      have hbeq := List.find?_some hfind
      exact hbeq
  | none =>
      show (u == u) = true
      exact beq_self_eq_true u

/-- The updated or created row is in the resulting store and receives the
defaults for the updated fields. -/
theorem update_or_create_result_fields (st : Store) (now : Int) (u : String)
    (d : ParticipantDefaults) :
    (update_or_create st now u d).2.1 ∈ (update_or_create st now u d).1.rows ∧
    (update_or_create st now u d).2.1.display_name = d.display_name ∧
    (update_or_create st now u d).2.1.is_admin = d.is_admin ∧
    (update_or_create st now u d).2.1.last_login = d.last_login := by
  unfold update_or_create
  cases hfind : st.rows.find? (fun p => p.ion_username == u) with
  | some p =>
      refine ⟨?_, rfl, rfl, rfl⟩
      simp only
      rw [List.mem_map]
      refine ⟨p, List.mem_of_find?_eq_some hfind, ?_⟩
      have hbeq := List.find?_some hfind
      rw [if_pos hbeq]
  | none =>
      refine ⟨?_, rfl, rfl, rfl⟩
      simp

/-- Every row of the store produced by an upsert that carries the key
username holds exactly the upserted defaults for the recomputed fields:
the latest login wins, nothing accumulates. -/
theorem update_or_create_latest (st : Store) (now : Int) (u : String)
    (d : ParticipantDefaults) :
    ∀ r ∈ (update_or_create st now u d).1.rows, r.ion_username = u →
      r.is_admin = d.is_admin ∧ r.last_login = d.last_login := by
  intro r hr hu
  unfold update_or_create at hr
  cases hfind : st.rows.find? (fun p => p.ion_username == u) with
  | some p =>
      rw [hfind] at hr
      simp only at hr
      rw [List.mem_map] at hr
      obtain ⟨q, hq, hfq⟩ := hr
      by_cases hqu : (q.ion_username == u) = true
      · rw [if_pos hqu] at hfq
        rw [← hfq]
        exact ⟨rfl, rfl⟩
      · rw [if_neg hqu] at hfq
        rw [← hfq] at hu
        exact absurd (beq_iff_eq.mpr hu) hqu
  | none =>
      rw [hfind] at hr
      simp only at hr
      rw [List.mem_append] at hr
      rcases hr with hr | hr
      · have := List.find?_eq_none.mp hfind r hr
        exact absurd (beq_iff_eq.mpr hu) this
      · rw [List.mem_singleton] at hr
        rw [hr]
        exact ⟨rfl, rfl⟩

/-- The upsert preserves the one-row-per-username invariant. -/
theorem update_or_create_unique (st : Store) (now : Int) (u : String)
    (d : ParticipantDefaults) (h : usernameUnique st) :
    usernameUnique (update_or_create st now u d).1 := by
  unfold usernameUnique update_or_create
  cases hfind : st.rows.find? (fun p => p.ion_username == u) with
  | some p =>
      simp only
      rw [List.pairwise_map]
      have hun : ∀ q : Participant,
          ((if (q.ion_username == u) = true then applyDefaults p d now
            else q)).ion_username = q.ion_username := by
        intro q
        by_cases hqu : (q.ion_username == u) = true
        · rw [if_pos hqu]
          have hbp := List.find?_some hfind
          have hp : p.ion_username = u := beq_iff_eq.mp hbp
          have hq : q.ion_username = u := beq_iff_eq.mp hqu
          show p.ion_username = q.ion_username
          rw [hp, hq]
        · rw [if_neg hqu]
      refine h.imp ?_
      intro a b hab
      rw [hun a, hun b]
      exact hab
  | none =>
      simp only
      rw [List.pairwise_append]
      refine ⟨h, List.pairwise_singleton _ _, ?_⟩
      intro a ha b hb
      rw [List.mem_singleton] at hb
      rw [hb]
      have hnp := List.find?_eq_none.mp hfind a ha
      show a.ion_username ≠ u
      intro hcon
      exact hnp (beq_iff_eq.mpr hcon)

/-- Under the invariant, a filter by username keeps at most one row. -/
theorem filter_username_le_one (rows : List Participant) (u : String)
    (h : rows.Pairwise (fun a b => a.ion_username ≠ b.ion_username)) :
    (rows.filter (fun p => p.ion_username == u)).length ≤ 1 := by
  induction rows with
  | nil => simp
  | cons a l ih =>
      obtain ⟨ha, hl⟩ := List.pairwise_cons.mp h
      by_cases hau : (a.ion_username == u) = true
      · have hnil : l.filter (fun p => p.ion_username == u) = [] := by
          rw [List.filter_eq_nil_iff]
          intro q hq
          have hq1 : a.ion_username ≠ q.ion_username := ha q hq
          have ha1 : a.ion_username = u := beq_iff_eq.mp hau
          intro hcon
          exact hq1 (by rw [ha1, beq_iff_eq.mp hcon])
        simp [List.filter_cons, hau, hnil]
      · rw [Bool.not_eq_true] at hau
        simp only [List.filter_cons, hau, Bool.false_eq_true, if_false]
        exact ih hl

/-- After an upsert, the store holds exactly one row with the key
username. -/
theorem update_or_create_filter_one (st : Store) (now : Int) (u : String)
    (d : ParticipantDefaults) (h : usernameUnique st) :
    ((update_or_create st now u d).1.rows.filter
        (fun p => p.ion_username == u)).length = 1 := by
  have hmem := (update_or_create_result_fields st now u d).1
  have hkey := update_or_create_result_key st now u d
  have huniq := update_or_create_unique st now u d h
  have hle := filter_username_le_one (update_or_create st now u d).1.rows u huniq
  have hge : 1 ≤ ((update_or_create st now u d).1.rows.filter
      (fun p => p.ion_username == u)).length := by
    have hin : (update_or_create st now u d).2.1 ∈
        (update_or_create st now u d).1.rows.filter (fun p => p.ion_username == u) :=
      List.mem_filter.mpr ⟨hmem, hkey⟩
    exact List.length_pos.mpr (List.ne_nil_of_mem hin)
  exact Nat.le_antisymm hle hge

/-- An upsert whose key already has a row in the store reports an update,
not a creation. -/
theorem update_or_create_created_false (st : Store) (now : Int) (u : String)
    (d : ParticipantDefaults) (h : ∃ r ∈ st.rows, (r.ion_username == u) = true) :
    (update_or_create st now u d).2.2 = false := by
  unfold update_or_create
  cases hfind : st.rows.find? (fun p => p.ion_username == u) with
  | some p => rfl
  | none =>
      exfalso
      obtain ⟨r, hr, hru⟩ := h
      exact (List.find?_eq_none.mp hfind r hr) hru

/-!  C5: one row per username, latest claims win  -/

/-- The defaults mapping computed by oauth_callback from a profile and the
login time (lines 180-190 of views.py), as a standalone function: none
models the uncaught exception from _build_display_name. -/
def defaultsFromProfile (profile : Profile) (now : Int) : Option ParticipantDefaults :=
  match build_display_name profile with
  | none => none
  | some dn0 =>
      some
        { display_name :=
            pyStr (if dn0 != "" then Value.vStr dn0 else pget profile "ion_username")
          email :=
            pyStr
              (if truthy (pget profile "tj_email") then pget profile "tj_email"
               else pgetD profile "email" (Value.vStr ""))
          graduation_year := extract_graduation_year profile
          is_admin := extract_is_admin profile
          last_login := some now }

/-- The mapped defaults carry the admin flag of their own profile and the
login time of their own login. -/
theorem defaultsFromProfile_fields (profile : Profile) (now : Int)
    (d : ParticipantDefaults) (h : defaultsFromProfile profile now = some d) :
    d.is_admin = extract_is_admin profile ∧ d.last_login = some now := by
  unfold defaultsFromProfile at h
  cases hb : build_display_name profile with
  | none =>
      rw [hb] at h
      exact Option.noConfusion h
  | some dn0 =>
      rw [hb] at h
      injection h with h2
      rw [← h2]
      exact ⟨rfl, rfl⟩

/-- C5: two completed logins for the same username (the second mapped from
profile p2 at time t2) leave a store that still satisfies the
one-row-per-username invariant, holds exactly one row keyed by that
username, reports an update (not a creation) for the second login, and
every row with that username carries the admin flag mapped from the most
recent login's claims only and the most recent login time. -/
theorem c5_upsert_latest_wins (st : Store) (u : String) (p1 p2 : Profile)
    (t1 t2 : Int) (d1 d2 : ParticipantDefaults)
    (h1 : defaultsFromProfile p1 t1 = some d1)
    (h2 : defaultsFromProfile p2 t2 = some d2)
    (huniq : usernameUnique st) :
    usernameUnique (update_or_create (update_or_create st t1 u d1).1 t2 u d2).1 ∧
    ((update_or_create (update_or_create st t1 u d1).1 t2 u d2).1.rows.filter
        (fun p => p.ion_username == u)).length = 1 ∧
    (update_or_create (update_or_create st t1 u d1).1 t2 u d2).2.2 = false ∧
    (∀ r ∈ (update_or_create (update_or_create st t1 u d1).1 t2 u d2).1.rows,
      r.ion_username = u → r.is_admin = extract_is_admin p2 ∧ r.last_login = some t2) := by
  have hu1 := update_or_create_unique st t1 u d1 huniq
  refine ⟨update_or_create_unique _ t2 u d2 hu1,
          update_or_create_filter_one _ t2 u d2 hu1,
          update_or_create_created_false _ t2 u d2
            ⟨(update_or_create st t1 u d1).2.1,
             (update_or_create_result_fields st t1 u d1).1,
             update_or_create_result_key st t1 u d1⟩,
          ?_⟩
  intro r hr hru
  have hlatest := update_or_create_latest _ t2 u d2 r hr hru
  have hd2 := defaultsFromProfile_fields p2 t2 d2 h2
  exact ⟨hlatest.1.trans hd2.1, hlatest.2.trans hd2.2⟩

/-- A minimal profile: username only. -/
def profJdoe : Profile := [("ion_username", Value.vStr "jdoe")]

/-- The same user with an admin group claim. -/
def profJdoeAdmin : Profile :=
  [("ion_username", Value.vStr "jdoe"),
   ("groups", Value.vList [Prim.pStr "Scavenger-Admin"])]

/-- The defaults mapped from profJdoe at time 10. -/
def dJdoe1 : ParticipantDefaults :=
  { display_name := "jdoe", email := "", graduation_year := none,
    is_admin := false, last_login := some 10 }

/-- The defaults mapped from profJdoeAdmin at time 20. -/
def dJdoe2 : ParticipantDefaults :=
  { display_name := "jdoe", email := "", graduation_year := none,
    is_admin := true, last_login := some 20 }

/-- C5 (witness): the theorem applied to two concrete logins of jdoe, a
non-admin one then an admin one, on the empty store. -/
theorem c5_upsert_latest_wins_witness :
    usernameUnique
      (update_or_create (update_or_create storeEmpty 10 "jdoe" dJdoe1).1 20 "jdoe"
        dJdoe2).1 ∧
    ((update_or_create (update_or_create storeEmpty 10 "jdoe" dJdoe1).1 20 "jdoe"
        dJdoe2).1.rows.filter (fun p => p.ion_username == "jdoe")).length = 1 ∧
    (update_or_create (update_or_create storeEmpty 10 "jdoe" dJdoe1).1 20 "jdoe"
        dJdoe2).2.2 = false ∧
    (∀ r ∈ (update_or_create (update_or_create storeEmpty 10 "jdoe" dJdoe1).1 20
        "jdoe" dJdoe2).1.rows,
      r.ion_username = "jdoe" →
        r.is_admin = extract_is_admin profJdoeAdmin ∧ r.last_login = some 20) :=
  c5_upsert_latest_wins storeEmpty "jdoe" profJdoe profJdoeAdmin 10 20 dJdoe1 dJdoe2
    (by decide) (by decide) List.Pairwise.nil

/-!  C10: non-empty display names  -/

/-- The decimal rendering of a natural number is never the empty character
list. -/
theorem natStrAux_ne_nil (fuel n : Nat) : natStrAux (fuel + 1) n ≠ [] := by
  unfold natStrAux
  split
  · simp
  · simp

/-- The decimal rendering of a natural number is never the empty string. -/
theorem natStr_ne_empty (n : Nat) : natStr n ≠ "" := by
  intro h
  have h2 : natStrAux (n + 1) n = [] := congrArg String.data h
  exact natStrAux_ne_nil n n h2

/-- The decimal rendering of an integer is never the empty string. -/
theorem intStr_ne_empty (n : Int) : intStr n ≠ "" := by
  cases n with
  | ofNat m => exact natStr_ne_empty m
  | negSucc m =>
      intro h
      have h2 : Char.ofNat 45 :: (natStr (m + 1)).data = [] := congrArg String.data h
      exact List.noConfusion h2

/-- The only value whose str() is empty is the empty string itself. -/
theorem pyStr_empty_imp (v : Value) (h : pyStr v = "") : v = Value.vStr "" := by
  cases v with
  | vNone => exact absurd h (by decide)
  | vStr s =>
      have hs : s = "" := h
      rw [hs]
  | vInt n => exact absurd h (intStr_ne_empty n)
  | vBool b => cases b <;> exact absurd h (by decide)
  | vList items =>
      exfalso
      have h2 : (("[" ++ String.intercalate ", " (items.map pyStrP)) ++ "]").data = [] :=
        congrArg String.data h
      rw [String.data_append] at h2
      have h3 := (List.append_eq_nil.mp h2).2
      exact absurd h3 (by decide)

/-- A truthy value never renders to the empty string. -/
theorem truthy_pyStr_ne_empty (v : Value) (h : truthy v = true) : pyStr v ≠ "" := by
  intro he
  have hv := pyStr_empty_imp v he
  rw [hv] at h
  exact absurd h (by decide)

/-- The display-name value written by oauth_callback is non-empty whenever
the profile carries a truthy username: either the built name is non-empty,
or the fallback is the truthy username value itself. -/
theorem display_value_ne_empty (profile : Profile) (dn0 : String)
    (hu : truthy (pget profile "ion_username") = true) :
    pyStr (if dn0 != "" then Value.vStr dn0 else pget profile "ion_username") ≠ "" := by
  by_cases hdn : dn0 = ""
  · subst hdn
    simp only [bne_self_eq_false, Bool.false_eq_true, if_false]
    exact truthy_pyStr_ne_empty _ hu
  · have hbne : (dn0 != "") = true := bne_iff_ne.mpr hdn
    rw [if_pos hbne]
    exact hdn

/-- C10: every participant row written by a successful oauth_callback has a
non-empty display_name — the built name when non-empty, else the (already
checked truthy) username — even though the Participant data model itself
admits an empty display_name (second conjunct). -/
theorem c10_written_display_nonempty (cfg : OAuthConfig) (qstate qcode : Option String)
    (tok : Option String) (prof : Option Profile) (now : Int) (sess : Session)
    (store : Store) (pid : Nat) (sess2 : Session) (store2 : Store)
    (h : oauth_callback cfg qstate qcode tok prof now sess store =
      (CallbackResp.success pid, sess2, store2)) :
    (∃ r ∈ store2.rows, r.id = pid ∧ r.display_name ≠ "") ∧
    ∃ q : Participant, q.display_name = "" := by
  refine ⟨?_, ⟨{ id := 0, ion_username := "", display_name := "", email := "",
                 graduation_year := none, is_admin := false, last_login := none,
                 created_at := 0, updated_at := 0 }, rfl⟩⟩
  simp only [oauth_callback] at h
  split at h
  · exact absurd h (by simp)
  split at h
  · exact absurd h (by simp)
  split at h
  · exact absurd h (by simp)
  split at h
  · exact absurd h (by simp)
  split at h
  · exact absurd h (by simp)
  split at h
  · exact absurd h (by simp)
  split at h
  · exact absurd h (by simp)
  rename_i pres profile hion xtra dn0 hbuild
  rw [Prod.mk.injEq, Prod.mk.injEq] at h
  obtain ⟨hid, _hsess, hstore⟩ := h
  injection hid with hid2
  have hu : truthy (pget profile "ion_username") = true := by
    simpa using hion
  refine ⟨(update_or_create store now (pyStr (pget profile "ion_username"))
      { display_name :=
          pyStr (if dn0 != "" then Value.vStr dn0 else pget profile "ion_username")
        email :=
          pyStr
            (if truthy (pget profile "tj_email") then pget profile "tj_email"
             else pgetD profile "email" (Value.vStr ""))
        graduation_year := extract_graduation_year profile
        is_admin := extract_is_admin profile
        last_login := some now }).2.1, ?_, hid2, ?_⟩
  · rw [← hstore]
    exact (update_or_create_result_fields _ _ _ _).1
  · rw [(update_or_create_result_fields _ _ _ _).2.1]
    exact display_value_ne_empty profile dn0 hu

/-- The participant row written by the concrete successful jdoe login used
as the C10 witness. -/
def rowJdoe : Participant :=
  { id := 1, ion_username := "jdoe", display_name := "jdoe", email := "",
    graduation_year := none, is_admin := false, last_login := some 5,
    created_at := 5, updated_at := 5 }

/-- C10 (witness): the theorem applied to one concrete successful callback
on the empty store. -/
theorem c10_written_display_nonempty_witness :
    (∃ r ∈ ({ rows := [rowJdoe], nextId := 2 } : Store).rows,
      r.id = 1 ∧ r.display_name ≠ "") ∧
    ∃ q : Participant, q.display_name = "" :=
  c10_written_display_nonempty cfgFull (some "abc") (some "code1") (some "tok1")
    (some profJdoe) 5 sessWithState storeEmpty 1
    { oauthState := none, oauthToken := some "tok1", participantId := some 1 }
    { rows := [rowJdoe], nextId := 2 } (by decide)
